import Mathlib

/-!
Shallow embedding of the employee-control bot core
(`bot/database.py`, `bot/utils/date_utils.py`, `bot/middleware.py`,
`bot/handlers/start.py`, `bot/handlers/work_format.py`, `bot/scheduler.py`).

SQLite tables are modelled as Lean lists of row structures; the row order of a
list is incidental (SQL tables are bags).  Machine integers are `Int`/`Nat`.
Python functions that mutate the database are modelled as pure functions from
a `DB` state to a new `DB` state (paired with their return value); a raised
exception is modelled as `Option String`/`Except String` carrying the message,
with the input state returned unchanged (a raise before `commit` leaves the
database untouched).  Strings are modelled with ASCII digits (`Char.isDigit`)
where CPython's `re`/`int` would also accept non-ASCII decimal digits.
-/

/-- Row of the `users` table (see `init_db` in `bot/database.py`):
`tg_id INTEGER PRIMARY KEY, username TEXT, name TEXT, role TEXT,
active_flag INTEGER, consent_given INTEGER, created_at TEXT`. -/
structure User where
  tg_id : Int
  username : Option String
  name : String
  role : String
  active_flag : Int
  consent_given : Int
  created_at : String
deriving DecidableEq

/-- Row of the `work_days` table: `tg_id, date, status, updated_at`
with `UNIQUE(tg_id, date)` (the AUTOINCREMENT surrogate id is omitted,
as no code reads it). -/
structure WorkDay where
  tg_id : Int
  date : String
  status : String
  updated_at : String
deriving DecidableEq

/-- Row of the `vacations` table: `tg_id, start_date, end_date, type, created_at`. -/
structure Vacation where
  tg_id : Int
  start_date : String
  end_date : String
  type : String
  created_at : String
deriving DecidableEq

/-- The three tables the identity/attendance logic touches. -/
structure DB where
  users : List User
  work_days : List WorkDay
  vacations : List Vacation
deriving DecidableEq

/-- `DEFAULT_ADMINS` from `bot/config.py`. -/
def DEFAULT_ADMINS : List String := ["mirvien", "ashuxtoff"]

/-- `DEFAULT_TEST_USERS` from `bot/config.py`. -/
def DEFAULT_TEST_USERS : List String := ["mfilaeff"]

/-- Python `old_user.get('username') in lst`: a `None` username is in no
string list. -/
def usernameIn (u : Option String) (l : List String) : Bool :=
  match u with
  | some s => l.contains s
  | none => false

/-- `get_user_by_tg_id` / the `SELECT * FROM users WHERE tg_id = ?` lookup:
first row with the given primary key (unique in a well-formed table). -/
def get_user_by_tg_id (db : DB) (tg_id : Int) : Option User :=
  db.users.find? (fun u => u.tg_id == tg_id)

/-- `get_user_by_username`: `SELECT * FROM users WHERE username = ?`. -/
def get_user_by_username (db : DB) (username : String) : Option User :=
  db.users.find? (fun u => u.username == some username)

/-- `update_user_consent` (`bot/database.py` lines 350-368):
`UPDATE users SET consent_given = ? WHERE tg_id = ?`, then returns `True`
unconditionally (also when zero rows matched). -/
def update_user_consent (db : DB) (tg_id : Int) (consent : Bool) : Bool × DB :=
  (true,
   { db with
     users := db.users.map (fun u =>
       if u.tg_id == tg_id then { u with consent_given := if consent then 1 else 0 } else u) })

/-- `update_user_active_flag` (`bot/database.py` lines 371-389):
`UPDATE users SET active_flag = ? WHERE tg_id = ?`, then returns `True`
unconditionally. -/
def update_user_active_flag (db : DB) (tg_id : Int) (active : Bool) : Bool × DB :=
  (true,
   { db with
     users := db.users.map (fun u =>
       if u.tg_id == tg_id then { u with active_flag := if active then 1 else 0 } else u) })

/-- `update_user_tg_id` (`bot/database.py` lines 392-473): look up the old row
(fail with `False` if absent), fail with `False` if a row already exists at the
new id, compute the final `active_flag` (forced to 1 for `DEFAULT_TEST_USERS`
usernames), `DELETE` the old row, `INSERT` the new row carrying the remaining
fields over, and re-key `work_days` and `vacations` rows from the old id to
the new id. -/
def update_user_tg_id (db : DB) (old_tg_id new_tg_id : Int) : Bool × DB :=
  match db.users.find? (fun u => u.tg_id == old_tg_id) with
  | none => (false, db)
  | some old_user =>
    match db.users.find? (fun u => u.tg_id == new_tg_id) with
    | some _ => (false, db)
    | none =>
      let final_active_flag : Int :=
        if usernameIn old_user.username DEFAULT_TEST_USERS then 1 else old_user.active_flag
      let newRow : User :=
        { tg_id := new_tg_id
          username := old_user.username
          name := old_user.name
          role := old_user.role
          active_flag := final_active_flag
          consent_given := old_user.consent_given
          created_at := old_user.created_at }
      (true,
       { users := db.users.filter (fun u => !(u.tg_id == old_tg_id)) ++ [newRow]
         work_days := db.work_days.map (fun w =>
           if w.tg_id == old_tg_id then { w with tg_id := new_tg_id } else w)
         vacations := db.vacations.map (fun v =>
           if v.tg_id == old_tg_id then { v with tg_id := new_tg_id } else v) })

/-- What a successful promotion leaves behind (the property C1 asserts of
`update_user_tg_id`): old id gone, a row at the new id carrying the old
fields with the test-user `active_flag` override, and every `work_days` /
`vacations` row re-keyed from the old id to the new id. -/
def PromotionOutcome (db : DB) (old_tg_id new_tg_id : Int) (u : User) : Prop :=
  (update_user_tg_id db old_tg_id new_tg_id).1 = true ∧
  (∀ v ∈ (update_user_tg_id db old_tg_id new_tg_id).2.users, v.tg_id ≠ old_tg_id) ∧
  (∃ v ∈ (update_user_tg_id db old_tg_id new_tg_id).2.users,
     v.tg_id = new_tg_id ∧ v.username = u.username ∧ v.name = u.name ∧
     v.role = u.role ∧ v.consent_given = u.consent_given ∧ v.created_at = u.created_at ∧
     v.active_flag = (if usernameIn u.username DEFAULT_TEST_USERS then 1 else u.active_flag)) ∧
  (∀ w ∈ db.work_days, w.tg_id = old_tg_id →
     { w with tg_id := new_tg_id } ∈ (update_user_tg_id db old_tg_id new_tg_id).2.work_days) ∧
  (∀ w ∈ db.work_days, w.tg_id ≠ old_tg_id →
     w ∈ (update_user_tg_id db old_tg_id new_tg_id).2.work_days) ∧
  (∀ w ∈ (update_user_tg_id db old_tg_id new_tg_id).2.work_days, w.tg_id ≠ old_tg_id) ∧
  (∀ w ∈ db.vacations, w.tg_id = old_tg_id →
     { w with tg_id := new_tg_id } ∈ (update_user_tg_id db old_tg_id new_tg_id).2.vacations) ∧
  (∀ w ∈ db.vacations, w.tg_id ≠ old_tg_id →
     w ∈ (update_user_tg_id db old_tg_id new_tg_id).2.vacations) ∧
  (∀ w ∈ (update_user_tg_id db old_tg_id new_tg_id).2.vacations, w.tg_id ≠ old_tg_id)

lemma map_eq_self_of {α : Type} (l : List α) (f : α → α) (h : ∀ a ∈ l, f a = a) :
    l.map f = l := by
  induction l with
  | nil => rfl
  | cons a t ih =>
    simp only [List.map_cons, List.cons.injEq]
    exact ⟨h a (by simp), ih (fun b hb => h b (by simp [hb]))⟩

/-- C10: a consent or active-flag update aimed at an id with no `users` row
returns `True` while changing nothing. -/
theorem flag_updates_missing_id_silent_noop
    (db : DB) (tg_id : Int) (consent active : Bool)
    (h : ∀ u ∈ db.users, u.tg_id ≠ tg_id) :
    update_user_consent db tg_id consent = (true, db) ∧
    update_user_active_flag db tg_id active = (true, db) := by
  have h1 : db.users.map (fun u =>
      if u.tg_id == tg_id then { u with consent_given := if consent then 1 else 0 } else u) =
      db.users := by
    apply map_eq_self_of
    intro u hu
    have hne : ¬ (u.tg_id == tg_id) = true := by simpa using h u hu
    rw [if_neg hne]
  have h2 : db.users.map (fun u =>
      if u.tg_id == tg_id then { u with active_flag := if active then 1 else 0 } else u) =
      db.users := by
    apply map_eq_self_of
    intro u hu
    have hne : ¬ (u.tg_id == tg_id) = true := by simpa using h u hu
    rw [if_neg hne]
  constructor
  · unfold update_user_consent
    rw [h1]
  · unfold update_user_active_flag
    rw [h2]

/-- Witness for C10 at a concrete database. -/
theorem flag_updates_missing_id_silent_noop_witness :
    update_user_consent
      ⟨[⟨5, some "a", "n", "employee", 1, 0, "t"⟩], [], []⟩ 7 true =
      (true, ⟨[⟨5, some "a", "n", "employee", 1, 0, "t"⟩], [], []⟩) ∧
    update_user_active_flag
      ⟨[⟨5, some "a", "n", "employee", 1, 0, "t"⟩], [], []⟩ 7 false =
      (true, ⟨[⟨5, some "a", "n", "employee", 1, 0, "t"⟩], [], []⟩) :=
  flag_updates_missing_id_silent_noop _ 7 true false (by decide)

/-- C2: promotion fails closed — if no row exists at the old id, or a row
already exists at the new id, `update_user_tg_id` returns `False` and the
whole database (users, work_days, vacations) is unchanged. -/
theorem update_user_tg_id_fails_closed
    (db : DB) (old_tg_id new_tg_id : Int)
    (h : db.users.find? (fun u => u.tg_id == old_tg_id) = none ∨
         (db.users.find? (fun u => u.tg_id == new_tg_id)).isSome = true) :
    update_user_tg_id db old_tg_id new_tg_id = (false, db) := by
  rcases h with h | h
  · simp [update_user_tg_id, h]
  · rcases hnew : db.users.find? (fun u => u.tg_id == new_tg_id) with _ | u
    · rw [hnew] at h
      simp at h
    · rcases hold : db.users.find? (fun u => u.tg_id == old_tg_id) with _ | v
      · simp [update_user_tg_id, hold]
      · simp [update_user_tg_id, hold, hnew]

/-- Witness for C2: source missing, and destination occupied. -/
theorem update_user_tg_id_fails_closed_witness :
    update_user_tg_id ⟨[⟨5, some "a", "n", "employee", 1, 0, "t"⟩], [], []⟩ 9 10 =
      (false, ⟨[⟨5, some "a", "n", "employee", 1, 0, "t"⟩], [], []⟩) ∧
    update_user_tg_id ⟨[⟨-1, some "a", "n", "admin", 1, 0, "t"⟩,
                        ⟨5, some "b", "m", "employee", 1, 1, "t"⟩], [], []⟩ (-1) 5 =
      (false, ⟨[⟨-1, some "a", "n", "admin", 1, 0, "t"⟩,
                ⟨5, some "b", "m", "employee", 1, 1, "t"⟩], [], []⟩) :=
  ⟨update_user_tg_id_fails_closed _ 9 10 (Or.inl (by decide)),
   update_user_tg_id_fails_closed _ (-1) 5 (Or.inr (by decide))⟩

/-- C1: a successful promotion (old row present, new id free) deletes the old
row, inserts the carried-over row at the new id with the `DEFAULT_TEST_USERS`
`active_flag` override, and re-keys all `work_days` and `vacations` rows. -/
theorem update_user_tg_id_promotes
    (db : DB) (old_tg_id new_tg_id : Int) (u : User)
    (hold : db.users.find? (fun x => x.tg_id == old_tg_id) = some u)
    (hnew : db.users.find? (fun x => x.tg_id == new_tg_id) = none) :
    PromotionOutcome db old_tg_id new_tg_id u := by
  have hne : old_tg_id ≠ new_tg_id := by
    intro h
    rw [h, hnew] at hold
    exact Option.noConfusion hold
  unfold PromotionOutcome
  simp only [update_user_tg_id, hold, hnew]
  refine ⟨by trivial, ?_, ?_, ?_, ?_, ?_, ?_, ?_, ?_⟩
  · intro v hv
    rcases List.mem_append.mp hv with hv | hv
    · have h2 := (List.mem_filter.mp hv).2
      simpa using h2
    · simp only [List.mem_singleton] at hv
      subst hv
      exact fun h => hne h.symm
  · exact ⟨_, List.mem_append.mpr (Or.inr (List.mem_singleton.mpr rfl)),
      rfl, rfl, rfl, rfl, rfl, rfl, rfl⟩
  · intro w hw hkey
    refine List.mem_map.mpr ⟨w, hw, ?_⟩
    have hb : (w.tg_id == old_tg_id) = true := by simpa using hkey
    rw [if_pos hb]
  · intro w hw hkey
    refine List.mem_map.mpr ⟨w, hw, ?_⟩
    have hb : ¬ (w.tg_id == old_tg_id) = true := by simpa using hkey
    rw [if_neg hb]
  · intro w hw
    rcases List.mem_map.mp hw with ⟨a, _, ha⟩
    by_cases h : (a.tg_id == old_tg_id) = true
    · rw [if_pos h] at ha
      rw [← ha]
      exact fun hcontra => hne hcontra.symm
    · rw [if_neg h] at ha
      rw [← ha]
      simpa using h
  · intro w hw hkey
    refine List.mem_map.mpr ⟨w, hw, ?_⟩
    have hb : (w.tg_id == old_tg_id) = true := by simpa using hkey
    rw [if_pos hb]
  · intro w hw hkey
    refine List.mem_map.mpr ⟨w, hw, ?_⟩
    have hb : ¬ (w.tg_id == old_tg_id) = true := by simpa using hkey
    rw [if_neg hb]
  · intro w hw
    rcases List.mem_map.mp hw with ⟨a, _, ha⟩
    by_cases h : (a.tg_id == old_tg_id) = true
    · rw [if_pos h] at ha
      rw [← ha]
      exact fun hcontra => hne hcontra.symm
    · rw [if_neg h] at ha
      rw [← ha]
      simpa using h

/-- Concrete database for the C1 witness: a deactivated test-user placeholder
at id -100 with one attendance row and one vacation row. -/
def promoDB : DB :=
  { users := [⟨-100, some "mfilaeff", "mfilaeff", "employee", 0, 1, "t0"⟩]
    work_days := [⟨-100, "2025-01-15", "Офис", "t1"⟩]
    vacations := [⟨-100, "2025-02-01", "2025-02-05", "vacation", "t2"⟩] }

/-- Witness for C1: promoting the deactivated placeholder -100 to 555 forces
`active_flag = 1` (test-user list) and re-keys the child rows. -/
theorem update_user_tg_id_promotes_witness :
    PromotionOutcome promoDB (-100) 555
      ⟨-100, some "mfilaeff", "mfilaeff", "employee", 0, 1, "t0"⟩ :=
  update_user_tg_id_promotes promoDB (-100) 555 _ (by decide) (by decide)

/-- `add_work_day` (`bot/database.py` lines 521-546):
`INSERT INTO work_days ... ON CONFLICT(tg_id, date) DO UPDATE SET
status = excluded.status, updated_at = excluded.updated_at`.
With the `UNIQUE(tg_id, date)` constraint the conflict target is the (at most
one) row with the same key, whose `status`/`updated_at` are overwritten;
otherwise a fresh row is appended.  The table is the `work_days` list; `now`
stands for `get_current_time()`. -/
def add_work_day (wd : List WorkDay) (tg_id : Int) (date status now : String) :
    List WorkDay :=
  if wd.any (fun r => r.tg_id == tg_id && r.date == date) then
    wd.map (fun r =>
      if r.tg_id == tg_id && r.date == date then
        { r with status := status, updated_at := now }
      else r)
  else wd ++ [⟨tg_id, date, status, now⟩]

/-- Number of `work_days` rows carrying a given (tg_id, date) key. -/
def countKey (wd : List WorkDay) (tg_id : Int) (date : String) : Nat :=
  wd.countP (fun r => r.tg_id == tg_id && r.date == date)

/-- The `UNIQUE(tg_id, date)` table invariant: no two rows share a key. -/
def NoDupKeys (wd : List WorkDay) : Prop :=
  List.Pairwise (fun a b => ¬ (a.tg_id = b.tg_id ∧ a.date = b.date)) wd

/-- A sequence of `add_work_day` calls (tg_id, date, status, now) applied in
order. -/
def applyCalls (wd : List WorkDay) (calls : List (Int × String × String × String)) :
    List WorkDay :=
  calls.foldl (fun acc c => add_work_day acc c.1 c.2.1 c.2.2.1 c.2.2.2) wd

lemma countP_le_one_of_noDup (wd : List WorkDay) (tg_id : Int) (date : String)
    (h : NoDupKeys wd) : countKey wd tg_id date ≤ 1 := by
  induction wd with
  | nil => simp [countKey]
  | cons a t ih =>
    rcases List.pairwise_cons.mp h with ⟨ha, ht⟩
    by_cases hp : (a.tg_id == tg_id && a.date == date) = true
    · have hkey : a.tg_id = tg_id ∧ a.date = date := by
        simpa using hp
      have hzero : countKey t tg_id date = 0 := by
        apply List.countP_eq_zero.mpr
        intro b hb hbp
        have hbkey : b.tg_id = tg_id ∧ b.date = date := by simpa using hbp
        exact ha b hb ⟨hkey.1.trans hbkey.1.symm, hkey.2.trans hbkey.2.symm⟩
      simp only [countKey, List.countP_cons, hp, if_pos]
      simp only [countKey] at hzero
      omega
    · simp only [countKey, List.countP_cons, hp, if_neg, Bool.false_eq_true,
        not_false_iff, add_zero]
      exact ih ht

lemma status_after_add (wd : List WorkDay) (tg_id : Int) (date status now : String) :
    ∀ r ∈ add_work_day wd tg_id date status now,
      r.tg_id = tg_id → r.date = date → r.status = status := by
  intro r hr h1 h2
  unfold add_work_day at hr
  by_cases hany : (wd.any (fun r => r.tg_id == tg_id && r.date == date)) = true
  · rw [if_pos hany] at hr
    rcases List.mem_map.mp hr with ⟨a, _, ha⟩
    by_cases hp : (a.tg_id == tg_id && a.date == date) = true
    · rw [if_pos hp] at ha
      rw [← ha]
    · rw [if_neg hp] at ha
      subst ha
      exact absurd (by simp [h1, h2]) hp
  · rw [if_neg hany] at hr
    rcases List.mem_append.mp hr with hr | hr
    · exfalso
      exact hany (List.any_eq_true.mpr ⟨r, hr, by simp [h1, h2]⟩)
    · simp only [List.mem_singleton] at hr
      rw [hr]

lemma countKey_add (wd : List WorkDay) (tg_id : Int) (date status now : String)
    (h : NoDupKeys wd) : countKey (add_work_day wd tg_id date status now) tg_id date = 1 := by
  unfold add_work_day
  by_cases hany : (wd.any (fun r => r.tg_id == tg_id && r.date == date)) = true
  · rw [if_pos hany]
    have hmap : countKey
        (wd.map (fun r => if r.tg_id == tg_id && r.date == date then
          { r with status := status, updated_at := now } else r)) tg_id date =
        countKey wd tg_id date := by
      unfold countKey
      rw [List.countP_map]
      apply List.countP_congr
      intro a _
      by_cases hp : (a.tg_id == tg_id && a.date == date) = true
      · simp [Function.comp, hp]
      · simp [Function.comp, hp]
    rw [hmap]
    have hpos : 0 < countKey wd tg_id date := by
      unfold countKey
      apply List.countP_pos_iff.mpr
      rcases List.any_eq_true.mp hany with ⟨a, ha, hp⟩
      exact ⟨a, ha, hp⟩
    have hle := countP_le_one_of_noDup wd tg_id date h
    omega
  · rw [if_neg hany]
    unfold countKey
    rw [List.countP_append]
    have hzero : wd.countP (fun r => r.tg_id == tg_id && r.date == date) = 0 := by
      apply List.countP_eq_zero.mpr
      intro b hb hbp
      exact hany (List.any_eq_true.mpr ⟨b, hb, hbp⟩)
    rw [hzero]
    simp

lemma noDup_add (wd : List WorkDay) (tg_id : Int) (date status now : String)
    (h : NoDupKeys wd) : NoDupKeys (add_work_day wd tg_id date status now) := by
  unfold add_work_day
  by_cases hany : (wd.any (fun r => r.tg_id == tg_id && r.date == date)) = true
  · rw [if_pos hany]
    unfold NoDupKeys
    rw [List.pairwise_map]
    apply h.imp_of_mem
    intro a b _ _ hab hcontra
    apply hab
    by_cases hpa : (a.tg_id == tg_id && a.date == date) = true <;>
      by_cases hpb : (b.tg_id == tg_id && b.date == date) = true <;>
      simp only [if_pos, if_neg, hpa, hpb] at hcontra <;>
      exact ⟨hcontra.1, hcontra.2⟩
  · rw [if_neg hany]
    unfold NoDupKeys
    rw [List.pairwise_append]
    refine ⟨h, List.pairwise_singleton _ _, ?_⟩
    intro a ha b hb hcontra
    simp only [List.mem_singleton] at hb
    subst hb
    exact hany (List.any_eq_true.mpr ⟨a, ha, by simp [hcontra.1, hcontra.2]⟩)

lemma noDup_applyCalls (calls : List (Int × String × String × String))
    (wd : List WorkDay) (h : NoDupKeys wd) : NoDupKeys (applyCalls wd calls) := by
  induction calls generalizing wd with
  | nil => exact h
  | cons c t ih => exact ih _ (noDup_add _ _ _ _ _ h)

/-- C3: on a table satisfying the unique-key invariant, two `add_work_day`
calls for the same (tg_id, date) leave exactly one row with that key and it
holds the second status; and no sequence of `add_work_day` calls ever breaks
the unique-key invariant. -/
theorem add_work_day_upsert_unique
    (wd : List WorkDay) (h : NoDupKeys wd) :
    (∀ tg_id date s1 t1 s2 t2,
       countKey (add_work_day (add_work_day wd tg_id date s1 t1) tg_id date s2 t2)
         tg_id date = 1 ∧
       ∀ r ∈ add_work_day (add_work_day wd tg_id date s1 t1) tg_id date s2 t2,
         r.tg_id = tg_id → r.date = date → r.status = s2) ∧
    (∀ calls, NoDupKeys (applyCalls wd calls)) := by
  constructor
  · intro tg_id date s1 t1 s2 t2
    exact ⟨countKey_add _ _ _ _ _ (noDup_add _ _ _ _ _ h),
           status_after_add _ _ _ _ _⟩
  · intro calls
    exact noDup_applyCalls calls wd h

/-- Witness for C3 on a concrete table and a concrete pair of calls. -/
theorem add_work_day_upsert_unique_witness :
    (countKey (add_work_day (add_work_day [] 1 "2025-01-15" "Офис" "t1")
        1 "2025-01-15" "Удалёнка" "t2") 1 "2025-01-15" = 1 ∧
     ∀ r ∈ add_work_day (add_work_day [] 1 "2025-01-15" "Офис" "t1")
        1 "2025-01-15" "Удалёнка" "t2",
       r.tg_id = 1 → r.date = "2025-01-15" → r.status = "Удалёнка") ∧
    NoDupKeys (applyCalls [] [(1, "2025-01-15", "Офис", "t1"),
                             (1, "2025-01-15", "Удалёнка", "t2")]) :=
  ⟨(add_work_day_upsert_unique [] (List.Pairwise.nil)).1 1 "2025-01-15" "Офис" "t1" "Удалёнка" "t2",
   (add_work_day_upsert_unique [] (List.Pairwise.nil)).2 _⟩

/-- Python whitespace characters removed by `str.strip()`. -/
def isPyWhitespace (c : Char) : Bool :=
  c == ' ' || c == '\t' || c == '\n' || c == '\r' || c == '\x0b' || c == '\x0c'

/-- `str.strip()` on the character list. -/
def stripList (l : List Char) : List Char :=
  ((l.dropWhile isPyWhitespace).reverse.dropWhile isPyWhitespace).reverse

/-- `str.strip()`. -/
def pyStrip (s : String) : String := String.mk (stripList s.data)

/-- `str.split(sep)` for a one-character separator, on the character list:
`"".split(sep) = [""]`, separators delimit (possibly empty) fields. -/
def splitListOn (sep : Char) : List Char → List (List Char)
  | [] => [[]]
  | c :: cs =>
    match splitListOn sep cs with
    | [] => if c == sep then [[], []] else [[c]]
    | h :: t => if c == sep then [] :: h :: t else (c :: h) :: t

/-- `str.split(sep)` for a one-character separator. -/
def splitOnCharStr (sep : Char) (s : String) : List String :=
  (splitListOn sep s.data).map String.mk

/-- A parsed calendar date (Python `datetime` restricted to its date part). -/
structure PDate where
  year : Nat
  month : Nat
  day : Nat
deriving DecidableEq

/-- Gregorian leap-year rule (as used by Python `datetime`). -/
def isLeap (y : Nat) : Bool :=
  (y % 4 == 0 && y % 100 != 0) || y % 400 == 0

/-- Days in a month of the proleptic Gregorian calendar. -/
def daysInMonth (y m : Nat) : Nat :=
  if m = 2 then (if isLeap y then 29 else 28)
  else if m = 4 ∨ m = 6 ∨ m = 9 ∨ m = 11 then 30
  else 31

/-- The regex fragment `\d{1,2}`: one or two (ASCII) digits. -/
def matchTwoDigit (s : String) : Bool :=
  (s.data.length == 1 || s.data.length == 2) && s.data.all Char.isDigit

/-- The regex fragment `\d{4}`: exactly four digits. -/
def matchFourDigit (s : String) : Bool :=
  s.data.length == 4 && s.data.all Char.isDigit

/-- Decimal value of a digit list (Python `int(...)` on a digit string). -/
def digitsToNat (l : List Char) : Nat :=
  l.foldl (fun acc c => acc * 10 + (c.toNat - '0'.toNat)) 0

/-- Python `int(...)` on a regex-guarded digit substring. -/
def toNatD (s : String) : Nat := digitsToNat s.data

/-- Python `datetime(year, month, day)`: validates year (1..9999), then
month (1..12), then day (1..days-in-month), raising `ValueError` otherwise.
`validate_date` maps the day/month range errors to its own message and any
other `ValueError` (e.g. year out of range) to a generic parse-error
message. -/
def datetimeCtor (y m d : Nat) (orig : String) : Except String PDate :=
  if y < 1 ∨ 9999 < y then
    Except.error ("Ошибка при разборе даты: year " ++ toString y ++ " is out of range")
  else if m < 1 ∨ 12 < m then
    Except.error ("Некорректная дата: " ++ orig ++ ". Проверьте день и месяц.")
  else if d < 1 ∨ daysInMonth y m < d then
    Except.error ("Некорректная дата: " ++ orig ++ ". Проверьте день и месяц.")
  else Except.ok ⟨y, m, d⟩

/-- `validate_date` (`bot/utils/date_utils.py` lines 41-88): reject empty or
blank input; strip; require `^\d{1,2}\.\d{1,2}\.\d{4}$` or `^\d{1,2}\.\d{1,2}$`
(the anchored regex agrees with splitting the stripped text on every `.` and
checking each field's digits); parse the fields as ints, defaulting the year
to the current year in the configured timezone (`currentYear`); then build
the `datetime`. -/
def validate_date (currentYear : Nat) (date_str : String) : Except String PDate :=
  if (stripList date_str.data).isEmpty then Except.error "Дата не может быть пустой."
  else
    match splitOnCharStr '.' (pyStrip date_str) with
    | [ds, ms, ys] =>
      if matchTwoDigit ds && matchTwoDigit ms && matchFourDigit ys then
        datetimeCtor (toNatD ys) (toNatD ms) (toNatD ds) (pyStrip date_str)
      else Except.error "Неверный формат даты. Используйте формат дд.ММ.ГГГГ или дд.ММ"
    | [ds, ms] =>
      if matchTwoDigit ds && matchTwoDigit ms then
        datetimeCtor currentYear (toNatD ms) (toNatD ds) (pyStrip date_str)
      else Except.error "Неверный формат даты. Используйте формат дд.ММ.ГГГГ или дд.ММ"
    | _ => Except.error "Неверный формат даты. Используйте формат дд.ММ.ГГГГ или дд.ММ"

/-- A real calendar date of Python `datetime`'s range: year 1..9999,
month 1..12, day within the month (Feb 29 only in leap years). -/
def isRealDate (y m d : Nat) : Prop :=
  1 ≤ y ∧ y ≤ 9999 ∧ 1 ≤ m ∧ m ≤ 12 ∧ 1 ≤ d ∧ d ≤ daysInMonth y m

/-- The spec's acceptance condition for C5, written from the spec's words:
after stripping, the text is well-formed `dd.mm.yyyy` or `dd.mm` (one- or
two-digit day and month) and denotes a real calendar date, with an omitted
year replaced by the current year. -/
def specAcceptsDate (currentYear : Nat) (s : String) : Prop :=
  match splitOnCharStr '.' (pyStrip s) with
  | [ds, ms, ys] =>
    (matchTwoDigit ds && matchTwoDigit ms && matchFourDigit ys) = true ∧
    isRealDate (toNatD ys) (toNatD ms) (toNatD ds)
  | [ds, ms] =>
    (matchTwoDigit ds && matchTwoDigit ms) = true ∧
    isRealDate currentYear (toNatD ms) (toNatD ds)
  | _ => False

lemma datetimeCtor_ok_iff (y m d : Nat) (orig : String) :
    (∃ p, datetimeCtor y m d orig = Except.ok p) ↔ isRealDate y m d := by
  unfold datetimeCtor isRealDate
  split_ifs with h1 h2 h3
  · constructor
    · intro ⟨p, hp⟩
      exact hp.elim
    · intro h
      omega
  · constructor
    · intro ⟨p, hp⟩
      exact hp.elim
    · intro h
      omega
  · constructor
    · intro ⟨p, hp⟩
      exact hp.elim
    · intro h
      omega
  · constructor
    · intro _
      omega
    · intro _
      exact ⟨_, rfl⟩

/-- C5: `validate_date` succeeds exactly on well-formed `dd.mm.yyyy` / `dd.mm`
text denoting a real calendar date (omitted year := current year); in
particular it errors on blank input, wrong shapes, out-of-range day or month,
and Feb 29 of a non-leap year. -/
theorem validate_date_characterization (currentYear : Nat) (s : String) :
    (∃ p, validate_date currentYear s = Except.ok p) ↔ specAcceptsDate currentYear s := by
  unfold validate_date specAcceptsDate
  by_cases he : (stripList s.data).isEmpty = true
  · have hd : stripList s.data = [] := by
      cases hl : stripList s.data with
      | nil => rfl
      | cons c cs =>
        rw [hl] at he
        exact absurd he (by simp)
    have hsplit : splitOnCharStr '.' (pyStrip s) = [String.mk []] := by
      unfold splitOnCharStr pyStrip
      rw [hd]
      rfl
    rw [if_pos he, hsplit]
    simp
  · rw [if_neg he]
    cases h : splitOnCharStr '.' (pyStrip s) with
    | nil => simp
    | cons a t =>
      cases t with
      | nil => simp
      | cons b t2 =>
        cases t2 with
        | nil =>
          dsimp only
          by_cases hm : (matchTwoDigit a && matchTwoDigit b) = true
          · rw [if_pos hm]
            rw [datetimeCtor_ok_iff]
            simp [hm]
          · rw [if_neg hm]
            simp [hm]
        | cons c t3 =>
          cases t3 with
          | nil =>
            dsimp only
            by_cases hm : (matchTwoDigit a && matchTwoDigit b && matchFourDigit c) = true
            · rw [if_pos hm]
              rw [datetimeCtor_ok_iff]
              simp [hm]
            · rw [if_neg hm]
              simp [hm]
          | cons d t4 => simp

/-- Lexicographic strict order on dates: `a.date() < b.date()` in Python. -/
def dateLtB (a b : PDate) : Bool :=
  decide (a.year < b.year ∨ (a.year = b.year ∧
    (a.month < b.month ∨ (a.month = b.month ∧ a.day < b.day))))

/-- Day-of-year (1-based) of a proleptic Gregorian date. -/
def dayOfYear (y m d : Nat) : Nat :=
  (List.range (m - 1)).foldl (fun acc i => acc + daysInMonth y (i + 1)) 0 + d

/-- Python `date.toordinal()`: day number in the proleptic Gregorian calendar,
with 0001-01-01 as day 1 (`(b - a).days = toOrdinal b - toOrdinal a`). -/
def toOrdinal (dt : PDate) : Nat :=
  365 * (dt.year - 1) + (dt.year - 1) / 4 + (dt.year - 1) / 400 +
    dayOfYear dt.year dt.month dt.day - (dt.year - 1) / 100

/-- `current_date + timedelta(days=1)` on valid dates. -/
def nextDay (dt : PDate) : PDate :=
  if dt.day < daysInMonth dt.year dt.month then ⟨dt.year, dt.month, dt.day + 1⟩
  else if dt.month < 12 then ⟨dt.year, dt.month + 1, 1⟩
  else ⟨dt.year + 1, 1, 1⟩

def pad2 (n : Nat) : String := if n < 10 then "0" ++ toString n else toString n

def pad4 (n : Nat) : String :=
  if n < 10 then "000" ++ toString n
  else if n < 100 then "00" ++ toString n
  else if n < 1000 then "0" ++ toString n
  else toString n

/-- `strftime("%Y-%m-%d")` / `date.isoformat()`. -/
def dateToIso (dt : PDate) : String :=
  pad4 dt.year ++ "-" ++ pad2 dt.month ++ "-" ++ pad2 dt.day

/-- Helper for the while-loops over `current <= end`: emit `fuel` consecutive
days starting at `c`.  On valid dates the Python loop executes exactly
`toOrdinal end + 1 - toOrdinal start` times, which the callers pass as fuel. -/
def genDays : PDate → Nat → List String
  | _, 0 => []
  | c, Nat.succ n => dateToIso c :: genDays (nextDay c) n

/-- `generate_date_range` (`bot/utils/date_utils.py` lines 139-168): inclusive
ascending day enumeration; empty when start > end. -/
def generate_date_range (start_date end_date : PDate) : List String :=
  if dateLtB end_date start_date then []
  else genDays start_date (toOrdinal end_date + 1 - toOrdinal start_date)

/-- The 4-tuple `(успех, сообщение, start_date, end_date)` returned by
`parse_date_range`. -/
structure RangeResult where
  ok : Bool
  msg : String
  start_date : Option PDate
  end_date : Option PDate
deriving DecidableEq

/-- `parse_date_range` (`bot/utils/date_utils.py` lines 91-136): reject blank
input; split the stripped text on hyphens (`re.split` with surrounding
whitespace, modelled as split-then-strip, plus the code's own `.strip()` on
each part); require exactly two segments; validate each via `validate_date`
tagging errors start/end; finally require start ≤ end, and on the ordering
error still return both parsed dates. -/
def parse_date_range (currentYear : Nat) (date_range_str : String) : RangeResult :=
  if (stripList date_range_str.data).isEmpty then
    ⟨false, "Диапазон дат не может быть пустым.", none, none⟩
  else
    match (splitOnCharStr '-' (pyStrip date_range_str)).map pyStrip with
    | [start_str, end_str] =>
      match validate_date currentYear start_str with
      | Except.error m => ⟨false, "Ошибка в начальной дате: " ++ m, none, none⟩
      | Except.ok start_date =>
        match validate_date currentYear end_str with
        | Except.error m => ⟨false, "Ошибка в конечной дате: " ++ m, none, none⟩
        | Except.ok end_date =>
          if dateLtB end_date start_date then
            ⟨false, "Начальная дата не может быть позже конечной даты.",
             some start_date, some end_date⟩
          else ⟨true, "", some start_date, some end_date⟩
    | _ => ⟨false,
        "Неверный формат диапазона дат. Используйте формат: дд.ММ.ГГГГ - дд.ММ.ГГГГ",
        none, none⟩

/-- `add_vacation` (`bot/database.py` lines 716-748): plain INSERT. -/
def add_vacation (db : DB) (tg_id : Int)
    (start_date end_date vacation_type now : String) : DB :=
  { db with vacations := db.vacations ++ [⟨tg_id, start_date, end_date, vacation_type, now⟩] }

/-- `FORMAT_TO_VACATION_TYPE.get(fmt, "vacation")` from
`bot/handlers/work_format.py`. -/
def FORMAT_TO_VACATION_TYPE (fmt : String) : String :=
  if fmt = "Отпуск" then "vacation"
  else if fmt = "Болезнь" then "sick"
  else if fmt = "Экспедиция" then "expedition"
  else "vacation"

/-- Database effect of `handle_date_range` (`bot/handlers/work_format.py`
lines 134-230): with no format in the FSM state, or on any
`parse_date_range` failure, nothing is persisted; on success one `vacations`
row is inserted and one `work_days` upsert is made per day of the range.
(The `| _, _ => db` arm is unreachable: `ok = true` implies both dates are
present.)  Message sending is outside the model. -/
def handle_date_range (db : DB) (user_id : Int) (currentYear : Nat)
    (selected_format : Option String) (input now : String) : DB :=
  match selected_format with
  | none => db
  | some fmt =>
    let r := parse_date_range currentYear input
    if r.ok = false then db
    else
      match r.start_date, r.end_date with
      | some sd, some ed =>
        let db1 := add_vacation db user_id (dateToIso sd) (dateToIso ed)
          (FORMAT_TO_VACATION_TYPE fmt) now
        (generate_date_range sd ed).foldl
          (fun acc d => { acc with work_days := add_work_day acc.work_days user_id d fmt now })
          db1
      | _, _ => db

/-- C6: when both segments validate but the first date is strictly later
than the second, `parse_date_range` fails with the ordering message while
still returning both parsed dates, and `handle_date_range` on that input
persists nothing. -/
theorem parse_date_range_ordering_error
    (currentYear : Nat) (input : String) (s1 s2 : String) (d1 d2 : PDate)
    (hsplit : (splitOnCharStr '-' (pyStrip input)).map pyStrip = [s1, s2])
    (hv1 : validate_date currentYear s1 = Except.ok d1)
    (hv2 : validate_date currentYear s2 = Except.ok d2)
    (hlt : dateLtB d2 d1 = true) :
    parse_date_range currentYear input =
      ⟨false, "Начальная дата не может быть позже конечной даты.", some d1, some d2⟩ ∧
    ∀ (db : DB) (user_id : Int) (selected_format : Option String) (now : String),
      handle_date_range db user_id currentYear selected_format input now = db := by
  have hne : (stripList input.data).isEmpty = false := by
    cases hl : stripList input.data with
    | nil =>
      exfalso
      have : splitOnCharStr '-' (pyStrip input) = [String.mk []] := by
        unfold splitOnCharStr pyStrip
        rw [hl]
        rfl
      rw [this] at hsplit
      exact List.noConfusion (List.cons.inj hsplit).2
    | cons c cs => rfl
  have hparse : parse_date_range currentYear input =
      ⟨false, "Начальная дата не может быть позже конечной даты.", some d1, some d2⟩ := by
    unfold parse_date_range
    rw [hne]
    simp only [Bool.false_eq_true, if_neg, not_false_iff]
    rw [hsplit]
    dsimp only
    rw [hv1, hv2]
    dsimp only
    rw [if_pos hlt]
  refine ⟨hparse, ?_⟩
  intro db user_id selected_format now
  unfold handle_date_range
  cases selected_format with
  | none => rfl
  | some fmt =>
    dsimp only
    rw [hparse]
    rfl

/-- Witness for C6 at the concrete input "05.01.2024 - 01.01.2024". -/
theorem parse_date_range_ordering_error_witness :
    parse_date_range 2024 "05.01.2024 - 01.01.2024" =
      ⟨false, "Начальная дата не может быть позже конечной даты.",
       some ⟨2024, 1, 5⟩, some ⟨2024, 1, 1⟩⟩ ∧
    handle_date_range ⟨[], [], []⟩ 1 2024 (some "Отпуск")
      "05.01.2024 - 01.01.2024" "t" = ⟨[], [], []⟩ := by
  have h := parse_date_range_ordering_error 2024 "05.01.2024 - 01.01.2024"
    "05.01.2024" "01.01.2024" ⟨2024, 1, 5⟩ ⟨2024, 1, 1⟩ (by decide) rfl rfl (by decide)
  exact ⟨h.1, h.2 ⟨[], [], []⟩ 1 (some "Отпуск") "t"⟩

/-- The while-loop of `set_range_work_days`: upsert `fuel` consecutive days
starting at `c` (fuel = number of loop iterations, see `genDays`). -/
def upsertDays : List WorkDay → Int → PDate → Nat → String → String → List WorkDay
  | wd, _, _, 0, _, _ => wd
  | wd, tg_id, c, Nat.succ n, status, now =>
      upsertDays (add_work_day wd tg_id (dateToIso c) status now) tg_id (nextDay c) n status now

/-- `set_range_work_days` (`bot/database.py` lines 549-615): parse the ISO
dates (inputs are taken as already-parsed date values; `fromisoformat` of a
well-formed `YYYY-MM-DD` string yields exactly the date triple), raise
`ValueError` if start > end, compute the inclusive span `(end - start).days + 1`,
raise `ValueError` if it exceeds `max_days` (the Python default is 365), else
upsert every day in the range.  A raise is modelled as `some errorMessage`
with the database unchanged (the raises happen before any SQL executes). -/
def set_range_work_days (db : DB) (tg_id : Int) (start_dt end_dt : PDate)
    (status now : String) (max_days : Nat) : DB × Option String :=
  if dateLtB end_dt start_dt then
    (db, some "Дата начала диапазона не может быть позже даты окончания.")
  else
    let total_days := toOrdinal end_dt + 1 - toOrdinal start_dt
    if max_days < total_days then
      (db, some ("Диапазон дат превышает допустимое значение " ++ toString max_days ++ " дней."))
    else
      ({ db with work_days := upsertDays db.work_days tg_id start_dt total_days status now },
       none)

/-- C7: `set_range_work_days` raises the ordering error when start > end and
the range-too-large error when the inclusive span exceeds `max_days`; in both
cases the database — in particular `work_days` — is returned unchanged. -/
theorem set_range_work_days_fails_closed
    (db : DB) (tg_id : Int) (start_dt end_dt : PDate)
    (status now : String) (max_days : Nat) :
    (dateLtB end_dt start_dt = true →
       set_range_work_days db tg_id start_dt end_dt status now max_days =
         (db, some "Дата начала диапазона не может быть позже даты окончания.")) ∧
    (dateLtB end_dt start_dt = false →
     max_days < toOrdinal end_dt + 1 - toOrdinal start_dt →
       set_range_work_days db tg_id start_dt end_dt status now max_days =
         (db, some ("Диапазон дат превышает допустимое значение " ++
                    toString max_days ++ " дней."))) := by
  constructor
  · intro hlt
    unfold set_range_work_days
    rw [if_pos hlt]
  · intro hlt hspan
    unfold set_range_work_days
    rw [hlt]
    simp only [Bool.false_eq_true, if_neg, not_false_iff]
    rw [if_pos hspan]

/-- Witness for C7: a reversed range, and a 731-day range against the default
`max_days = 365`. -/
theorem set_range_work_days_fails_closed_witness :
    set_range_work_days ⟨[], [], []⟩ 1 ⟨2024, 5, 10⟩ ⟨2024, 5, 1⟩ "Отпуск" "t" 365 =
      (⟨[], [], []⟩, some "Дата начала диапазона не может быть позже даты окончания.") ∧
    set_range_work_days ⟨[], [], []⟩ 1 ⟨2024, 1, 1⟩ ⟨2025, 12, 31⟩ "Отпуск" "t" 365 =
      (⟨[], [], []⟩, some ("Диапазон дат превышает допустимое значение " ++
                           toString 365 ++ " дней.")) :=
  ⟨(set_range_work_days_fails_closed ⟨[], [], []⟩ 1 ⟨2024, 5, 10⟩ ⟨2024, 5, 1⟩
      "Отпуск" "t" 365).1 (by decide),
   (set_range_work_days_fails_closed ⟨[], [], []⟩ 1 ⟨2024, 1, 1⟩ ⟨2025, 12, 31⟩
      "Отпуск" "t" 365).2 (by decide) (by decide)⟩

/-- `has_user_answered_today` (`bot/database.py` lines 639-656):
`SELECT 1 FROM work_days WHERE tg_id = ? AND date = ?` row existence. -/
def has_user_answered_today (db : DB) (tg_id : Int) (date : String) : Bool :=
  db.work_days.any (fun r => r.tg_id == tg_id && r.date == date)

/-- `get_active_and_consented_users` (`bot/database.py` lines 331-347):
`SELECT * FROM users WHERE active_flag = 1 AND consent_given = 1`. -/
def get_active_and_consented_users (db : DB) : List User :=
  db.users.filter (fun u => u.active_flag == 1 && u.consent_given == 1)

/-- `get_users_without_answer_today` (`bot/database.py` lines 659-683): when
no date is given use `get_today_date()` (modelled by the `today` parameter),
then keep the active-and-consented users with no `work_days` row for that
date. -/
def get_users_without_answer_today (db : DB) (today : String)
    (date : Option String) : List User :=
  let d := date.getD today
  (get_active_and_consented_users db).filter
    (fun u => !(has_user_answered_today db u.tg_id d))

/-- C8: the result of `get_users_without_answer_today` is exactly the set
of users with `active_flag = 1`, `consent_given = 1`, and no `work_days`
row on the reference date; an omitted date means the current date. -/
theorem get_users_without_answer_today_spec
    (db : DB) (today : String) (date : Option String) (u : User) :
    (u ∈ get_users_without_answer_today db today date ↔
       u ∈ db.users ∧ u.active_flag = 1 ∧ u.consent_given = 1 ∧
       ¬ ∃ r ∈ db.work_days, r.tg_id = u.tg_id ∧ r.date = date.getD today) ∧
    get_users_without_answer_today db today none =
      get_users_without_answer_today db today (some today) := by
  constructor
  · simp only [get_users_without_answer_today, get_active_and_consented_users,
      has_user_answered_today]
    constructor
    · intro hmem
      rcases List.mem_filter.mp hmem with ⟨hmem2, hnob⟩
      rcases List.mem_filter.mp hmem2 with ⟨hu, hflags⟩
      simp only [Bool.and_eq_true, beq_iff_eq] at hflags
      refine ⟨hu, hflags.1, hflags.2, ?_⟩
      rintro ⟨r, hr, h1, h2⟩
      have hb : (r.tg_id == u.tg_id && r.date == date.getD today) = true := by
        simp [h1, h2]
      have hany : (db.work_days.any
          (fun r => r.tg_id == u.tg_id && r.date == date.getD today)) = true :=
        List.any_eq_true.mpr ⟨r, hr, hb⟩
      rw [Bool.not_eq_true'] at hnob
      rw [hany] at hnob
      exact Bool.noConfusion hnob
    · intro ⟨hu, ha, hc, hno⟩
      apply List.mem_filter.mpr
      refine ⟨List.mem_filter.mpr ⟨hu, by simp [ha, hc]⟩, ?_⟩
      rw [Bool.not_eq_true']
      apply List.any_eq_false.mpr
      intro r hr hb
      simp only [Bool.and_eq_true, beq_iff_eq] at hb
      exact hno ⟨r, hr, hb.1, hb.2⟩
  · rfl

/-- Witness for C8 at a concrete database: the user with an entry on the
reference date is excluded, the one without is included. -/
theorem get_users_without_answer_today_spec_witness :
    (⟨2, some "b", "B", "employee", 1, 1, "t"⟩ : User) ∈
      get_users_without_answer_today
        ⟨[⟨1, some "a", "A", "employee", 1, 1, "t"⟩,
          ⟨2, some "b", "B", "employee", 1, 1, "t"⟩],
         [⟨1, "2025-01-15", "Офис", "t"⟩], []⟩
        "2025-01-15" none ∧
    2 = 2 :=
  ⟨(get_users_without_answer_today_spec
      ⟨[⟨1, some "a", "A", "employee", 1, 1, "t"⟩,
        ⟨2, some "b", "B", "employee", 1, 1, "t"⟩],
       [⟨1, "2025-01-15", "Офис", "t"⟩], []⟩
      "2025-01-15" none ⟨2, some "b", "B", "employee", 1, 1, "t"⟩).1.mpr
    (by refine ⟨by decide, rfl, rfl, ?_⟩
        rintro ⟨r, hr, h1, h2⟩
        simp only [List.mem_singleton] at hr
        subst hr
        exact absurd h1 (by decide)),
   rfl⟩

/-- Python builtin `int(str)`: strip whitespace, optional sign, then a
nonempty digit run (the rare underscore-grouping form is out of scope of the
values this code meets). -/
def pyIntParse (s : String) : Option Int :=
  match stripList s.data with
  | [] => none
  | c :: cs =>
    if c == '-' then
      if !cs.isEmpty && cs.all Char.isDigit then some (-(digitsToNat cs : Int)) else none
    else if c == '+' then
      if !cs.isEmpty && cs.all Char.isDigit then some ((digitsToNat cs : Int)) else none
    else if (c :: cs).all Char.isDigit then some ((digitsToNat (c :: cs) : Int))
    else none

/-- The cron trigger value built by apscheduler's
`CronTrigger(hour=…, minute=…)`. -/
structure CronTrigger where
  hour : Int
  minute : Int
deriving DecidableEq

/-- apscheduler's `CronTrigger(hour=h, minute=m)`: raises `ValueError` when
the hour lies outside 0-23 or the minute outside 0-59 (cron field ranges). -/
def mkCronTrigger (h m : Int) : Except String CronTrigger :=
  if 0 ≤ h ∧ h ≤ 23 ∧ 0 ≤ m ∧ m ≤ 59 then Except.ok ⟨h, m⟩
  else Except.error "ValueError: invalid cron field value"

/-- `_parse_time_to_cron` (`bot/scheduler.py` lines 25-31): split on ":",
require exactly two parts, convert both with `int(...)`, and build the
`CronTrigger` (whose own range validation then applies). -/
def parse_time_to_cron (time_str : String) : Except String CronTrigger :=
  match splitOnCharStr ':' time_str with
  | [hs, ms] =>
    match pyIntParse hs, pyIntParse ms with
    | some h, some m => mkCronTrigger h m
    | _, _ => Except.error ("ValueError: invalid literal for int: " ++ time_str)
  | _ => Except.error ("Некорректный формат времени: " ++ time_str)

/-- `configure_scheduler_jobs` (`bot/scheduler.py` lines 80-103): parse the
two stored trigger times and register both jobs; a `ValueError` from either
parse propagates and the configuration fails (no default time is
substituted).  The value models the pair of registered triggers. -/
def configure_scheduler_jobs (morning_time afternoon_time : String) :
    Except String (CronTrigger × CronTrigger) :=
  match parse_time_to_cron morning_time with
  | Except.error e => Except.error e
  | Except.ok m =>
    match parse_time_to_cron afternoon_time with
    | Except.error e => Except.error e
    | Except.ok a => Except.ok (m, a)

/-- What a stored trigger-time value must look like for parsing to succeed
(the spec's well-formedness: exactly an hour:minute pair, both numeric, both
in the valid clock range). -/
def WellFormedTime (s : String) (c : CronTrigger) : Prop :=
  ∃ hs ms, splitOnCharStr ':' s = [hs, ms] ∧
    pyIntParse hs = some c.hour ∧ pyIntParse ms = some c.minute ∧
    0 ≤ c.hour ∧ c.hour ≤ 23 ∧ 0 ≤ c.minute ∧ c.minute ≤ 59

/-- C9: a trigger time parses only if it is exactly a numeric hour:minute
pair in clock range; scheduler configuration succeeds exactly when both
stored values parse, and otherwise fails with the propagated format error —
never by falling back to a default time. -/
theorem scheduler_time_format_fails_closed :
    (∀ s c, parse_time_to_cron s = Except.ok c → WellFormedTime s c) ∧
    (∀ mt aft, (∃ p, configure_scheduler_jobs mt aft = Except.ok p) ↔
       ((∃ c, parse_time_to_cron mt = Except.ok c) ∧
        (∃ c, parse_time_to_cron aft = Except.ok c))) ∧
    (∀ mt aft, ((∀ c, parse_time_to_cron mt ≠ Except.ok c) ∨
                (∀ c, parse_time_to_cron aft ≠ Except.ok c)) →
       ∃ e, configure_scheduler_jobs mt aft = Except.error e) := by
  have hparse : ∀ s c, parse_time_to_cron s = Except.ok c → WellFormedTime s c := by
    intro s c hok
    unfold parse_time_to_cron at hok
    cases hsp : splitOnCharStr ':' s with
    | nil => rw [hsp] at hok; exact Except.noConfusion hok
    | cons a t =>
      cases t with
      | nil => rw [hsp] at hok; exact Except.noConfusion hok
      | cons b t2 =>
        cases t2 with
        | nil =>
          rw [hsp] at hok
          dsimp only at hok
          cases hh : pyIntParse a with
          | none => rw [hh] at hok; exact Except.noConfusion hok
          | some hv =>
            cases hm : pyIntParse b with
            | none => rw [hh, hm] at hok; exact Except.noConfusion hok
            | some mv =>
              rw [hh, hm] at hok
              dsimp only at hok
              unfold mkCronTrigger at hok
              by_cases hr : 0 ≤ hv ∧ hv ≤ 23 ∧ 0 ≤ mv ∧ mv ≤ 59
              · rw [if_pos hr] at hok
                have hc : c = ⟨hv, mv⟩ := (Except.ok.inj hok).symm
                subst hc
                exact ⟨a, b, hsp, hh, hm, hr.1, hr.2.1, hr.2.2.1, hr.2.2.2⟩
              · rw [if_neg hr] at hok
                exact Except.noConfusion hok
        | cons d t3 => rw [hsp] at hok; exact Except.noConfusion hok
  have hconf : ∀ mt aft, (∃ p, configure_scheduler_jobs mt aft = Except.ok p) ↔
      ((∃ c, parse_time_to_cron mt = Except.ok c) ∧
       (∃ c, parse_time_to_cron aft = Except.ok c)) := by
    intro mt aft
    unfold configure_scheduler_jobs
    cases hm : parse_time_to_cron mt with
    | error e =>
      simp only
      constructor
      · intro ⟨p, hp⟩
        exact (Except.noConfusion hp : False).elim
      · intro ⟨⟨c, hc⟩, _⟩
        exact Except.noConfusion hc
    | ok m =>
      cases ha : parse_time_to_cron aft with
      | error e =>
        simp only
        constructor
        · intro ⟨p, hp⟩
          exact (Except.noConfusion hp : False).elim
        · intro ⟨_, ⟨c, hc⟩⟩
          exact Except.noConfusion hc
      | ok a =>
        simp only
        exact ⟨fun _ => ⟨⟨m, rfl⟩, ⟨a, rfl⟩⟩, fun _ => ⟨(m, a), rfl⟩⟩
  refine ⟨hparse, hconf, ?_⟩
  intro mt aft hbad
  cases hres : configure_scheduler_jobs mt aft with
  | error e => exact ⟨e, rfl⟩
  | ok p =>
    exfalso
    have := (hconf mt aft).mp ⟨p, hres⟩
    rcases hbad with hbad | hbad
    · rcases this.1 with ⟨c, hc⟩
      exact hbad c hc
    · rcases this.2 with ⟨c, hc⟩
      exact hbad c hc

/-- Witness for C9: "08:00" parses to the 08:00 trigger; "25:00" makes
configuration fail. -/
theorem scheduler_time_format_fails_closed_witness :
    WellFormedTime "08:00" ⟨8, 0⟩ ∧
    (∃ e, configure_scheduler_jobs "25:00" "15:00" = Except.error e) :=
  ⟨scheduler_time_format_fails_closed.1 "08:00" ⟨8, 0⟩ rfl,
   scheduler_time_format_fails_closed.2.2 "25:00" "15:00"
     (Or.inl (fun _ hc => Except.noConfusion hc))⟩

/-- `create_user` (`bot/database.py` lines 182-237): INSERT a fresh row
(`consent_given` defaults to 0); a primary-key conflict raises
`IntegrityError`, caught and turned into `False` with no change.  (The
function's own post-insert `active_flag` re-check never fires in a
single-writer model.) -/
def create_user (db : DB) (tg_id : Int) (username : Option String)
    (name role : String) (active : Bool) (now : String) : Bool × DB :=
  if (db.users.find? (fun u => u.tg_id == tg_id)).isSome then (false, db)
  else
    (true,
     { db with users := db.users ++
        [{ tg_id := tg_id, username := username, name := name, role := role,
           active_flag := if active then 1 else 0, consent_given := 0, created_at := now }] })

/-- `is_user_registered` (`bot/database.py` lines 282-296): the user exists
and `bool(active_flag)` holds. -/
def is_user_registered (db : DB) (tg_id : Int) : Bool :=
  match get_user_by_tg_id db tg_id with
  | none => false
  | some u => !(u.active_flag == 0)

/-- `register_admin_if_needed` (`bot/database.py` lines 476-518): only for a
username on `DEFAULT_ADMINS`; promote an existing negative-id placeholder,
keep an existing real row, or create a fresh admin row; returns whether the
caller should treat the user as an admin. -/
def register_admin_if_needed (db : DB) (tg_id : Int) (username : Option String)
    (name now : String) : Bool × DB :=
  match username with
  | none => (false, db)
  | some un =>
    if !(DEFAULT_ADMINS.contains un) then (false, db)
    else
      match get_user_by_username db un with
      | some existing_user =>
        if existing_user.tg_id < 0 then
          (true, (update_user_tg_id db existing_user.tg_id tg_id).2)
        else (true, db)
      | none => (true, (create_user db tg_id (some un) name "admin" true now).2)

/-- The test-user reconciliation inside `cmd_start`
(`bot/handlers/start.py` lines 29-59): when the caller is not an admin and a
negative-id row exists under their username, promote it and, for
`DEFAULT_TEST_USERS` handles whose row came out inactive, force
`active_flag = 1`. -/
def cmd_start_test_promotion (db : DB) (user_id : Int) (username : Option String)
    (admin_registered : Bool) : DB :=
  match username with
  | none => db
  | some un =>
    if admin_registered then db
    else
      match get_user_by_username db un with
      | none => db
      | some test_user =>
        if test_user.tg_id < 0 then
          let r := update_user_tg_id db test_user.tg_id user_id
          if r.1 then
            match get_user_by_tg_id r.2 user_id with
            | some updated_user =>
              if DEFAULT_TEST_USERS.contains un && updated_user.active_flag == 0 then
                (update_user_active_flag r.2 user_id true).2
              else r.2
            | none => r.2
          else r.2
        else db

/-- The reply `cmd_start` sends, as a function of the post-reconciliation
lookup (`bot/handlers/start.py` lines 61-114).  A missing row is denied with
the bare closed-access message whether or not an admin registration was
reported (the handler re-fetches the same row and denies identically); a
consent-less row gets the consent prompt; an inactive row gets a denial that
names the deactivation; an active consented row is welcomed. -/
def cmd_start_response (db : DB) (user_id : Int) : String :=
  match get_user_by_tg_id db user_id with
  | none => "🚫 Доступ закрыт."
  | some user =>
    if user.consent_given == 0 then
      "👋 Добро пожаловать!\n\nДля работы с ботом необходимо дать согласие на обработку персональных данных.\n\nВы согласны на обработку ваших персональных данных?"
    else if user.active_flag == 0 then
      "🚫 Доступ закрыт.\n\nВаш аккаунт деактивирован."
    else
      "👋 Добро пожаловать!\n\nЯ помогу отслеживать формат работы сотрудников.\nИспользуйте команды бота для работы."

/-- `cmd_start` (`bot/handlers/start.py`): admin auto-registration, then
test-user promotion, then the reply for the resulting database state. -/
def cmd_start (db : DB) (user_id : Int) (username : Option String)
    (name now : String) : DB × String :=
  let ar := register_admin_if_needed db user_id username name now
  let db2 := cmd_start_test_promotion ar.2 user_id username ar.1
  (db2, cmd_start_response db2 user_id)

/-- Observable outcome of the access middleware for one message. -/
inductive MwOutcome where
  | passed
  | denied (msg : String)
deriving DecidableEq

/-- `AccessControlMiddleware.__call__` (`bot/middleware.py` lines 60-74) for a
plain text message (not `/start`, not a consent button): pass a registered
active user through; otherwise attempt admin auto-registration and, failing
that, answer with the uniform closed-access message. -/
def middleware_plain_message (db : DB) (user_id : Int) (username : Option String)
    (name now : String) : MwOutcome × DB :=
  if is_user_registered db user_id then (MwOutcome.passed, db)
  else
    match username with
    | none => (MwOutcome.denied "🚫 Доступ закрыт.", db)
    | some un =>
      let r := register_admin_if_needed db user_id (some un) name now
      if r.1 then (MwOutcome.passed, r.2)
      else (MwOutcome.denied "🚫 Доступ закрыт.", r.2)

/-- One inactive consented employee (id 10) and no row at id 99. -/
def c4db : DB :=
  { users := [⟨10, some "bob", "Bob", "employee", 0, 1, "t0"⟩]
    work_days := []
    vacations := [] }

/-- Counterexample to C4 as stated: on the `/start` denial path the reply for
an unknown identity differs from the reply for a deactivated (consented)
identity — the latter names the deactivation. -/
theorem denial_responses_differ_counterexample :
    (cmd_start c4db 99 none "Имя" "t1").2 = "🚫 Доступ закрыт." ∧
    (cmd_start c4db 10 none "Имя" "t1").2 =
      "🚫 Доступ закрыт.\n\nВаш аккаунт деактивирован." ∧
    (cmd_start c4db 99 none "Имя" "t1").2 ≠ (cmd_start c4db 10 none "Имя" "t1").2 := by
  refine ⟨rfl, rfl, ?_⟩
  decide

/-- C4 (amended): on the middleware denial path the observable response is
the same uniform message whether the identity has no row at all or a row
with `active_flag = 0`, provided the username does not trigger admin
auto-registration. -/
theorem middleware_denial_uniform
    (db : DB) (user_id : Int) (username : Option String) (name now : String)
    (hadmin : ∀ un, username = some un → DEFAULT_ADMINS.contains un = false)
    (huser : get_user_by_tg_id db user_id = none ∨
             ∃ u, get_user_by_tg_id db user_id = some u ∧ u.active_flag = 0) :
    (middleware_plain_message db user_id username name now).1 =
      MwOutcome.denied "🚫 Доступ закрыт." := by
  have hreg : is_user_registered db user_id = false := by
    unfold is_user_registered
    rcases huser with h | ⟨u, hu, hflag⟩
    · rw [h]
    · rw [hu]
      dsimp only
      rw [hflag]
      rfl
  unfold middleware_plain_message
  rw [hreg]
  simp only [Bool.false_eq_true, if_neg, not_false_iff]
  cases username with
  | none => rfl
  | some un =>
    have hc := hadmin un rfl
    unfold register_admin_if_needed
    dsimp only
    rw [hc]
    rfl

/-- Witness for the amended C4: in `c4db` both the unknown id 99 and the
deactivated id 10 receive the identical middleware denial. -/
theorem middleware_denial_uniform_witness :
    (middleware_plain_message c4db 99 (some "bob") "Имя" "t1").1 =
      MwOutcome.denied "🚫 Доступ закрыт." ∧
    (middleware_plain_message c4db 10 (some "bob") "Имя" "t1").1 =
      MwOutcome.denied "🚫 Доступ закрыт." :=
  ⟨middleware_denial_uniform c4db 99 (some "bob") "Имя" "t1"
     (by intro un h; cases h; rfl) (Or.inl (by decide)),
   middleware_denial_uniform c4db 10 (some "bob") "Имя" "t1"
     (by intro un h; cases h; rfl)
     (Or.inr ⟨⟨10, some "bob", "Bob", "employee", 0, 1, "t0"⟩, by decide, rfl⟩)⟩

/-- Witness for C5: Feb 29 of the leap year 2024 is accepted. -/
theorem validate_date_characterization_witness :
    specAcceptsDate 2024 "29.02.2024" :=
  (validate_date_characterization 2024 "29.02.2024").mp ⟨⟨2024, 2, 29⟩, rfl⟩
